import Mathlib

/-!
Verification of the image-search aggregator backend (`main.py`).

Shallow embedding: each upstream HTTP call is modelled by an explicit
argument carrying what the call would have produced — `Except.ok` with the
parsed page list of the response, or `Except.error e` where `e` is the
Python `str(e)` of the exception the call raised.  JSON fields that may be
absent are `Option String`; Python truthiness (`None` and `""` are falsy)
is modelled explicitly.
-/

/-- Python truthiness of an optional string: `None` and `""` are falsy. -/
def truthy : Option String → Bool
  | none => false
  | some s => !(s == "")

/-- Python `a or b` on optional strings (left operand when truthy, else right). -/
def pyOr (a b : Option String) : Option String :=
  if truthy a then a else b

/-- Python `title.replace("File:", "")`: one left-to-right pass removing every
occurrence of `"File:"` (not only a leading one). -/
def removeFileAll : List Char → List Char
  | 'F' :: 'i' :: 'l' :: 'e' :: ':' :: rest => removeFileAll rest
  | c :: rest => c :: removeFileAll rest
  | [] => []

/-- Python `s.replace(' ', '_')` (used to build a Commons description URL). -/
def spacesToUnderscores (s : String) : String :=
  ⟨s.data.map (fun c => if c = ' ' then '_' else c)⟩

/-- Python `s.strip()`: remove whitespace at both ends. -/
def pyStrip (s : String) : String :=
  ⟨((s.data.dropWhile Char.isWhitespace).reverse.dropWhile Char.isWhitespace).reverse⟩

/-- The title cleaning performed by `search_commons_images`:
`page.get("title", "").replace("File:", "").strip()`. -/
def cleanTitle (t : String) : String :=
  pyStrip ⟨removeFileAll t.data⟩

/-- Python `str(e)[:50]` (used by the `/test` endpoint). -/
def pyTake50 (s : String) : String :=
  ⟨s.data.take 50⟩

/-- One record of the `items` list of a `SearchResponse`.  Wikipedia pages can
lack a title (`page.get("title")` is `None`), hence `title : Option String`. -/
structure ImageResult where
  title : Option String
  thumbnail : String
  pageUrl : String
  summary : Option String
  source : String
  deriving DecidableEq, Repr

/-- The body returned by the `/images` handler. -/
structure SearchResponse where
  query : String
  count : Nat
  items : List ImageResult
  error : Option String
  deriving DecidableEq, Repr

/-- The `imageinfo[0]` object of a Commons page: `thumburl`, `url`, and the
`extmetadata.Artist.value` entry, each possibly absent. -/
structure CommonsImageInfo where
  thumburl : Option String := none
  url : Option String := none
  artist : Option String := none
  deriving DecidableEq, Repr

/-- One page of the Commons API response.  `imageinfo := none` models both a
missing and an empty `imageinfo` list (the code reads `(page.get("imageinfo")
or [{}])[0]`).  A missing `title` is the default `""` (`page.get("title", "")`). -/
structure CommonsPage where
  title : String := ""
  fullurl : Option String := none
  imageinfo : Option CommonsImageInfo := none
  deriving DecidableEq, Repr

/-- `thumb = imageinfo.get("thumburl") or imageinfo.get("url")`. -/
def resolveThumb (pg : CommonsPage) : Option String :=
  let ii := pg.imageinfo.getD {}
  pyOr ii.thumburl ii.url

/-- `desc_url = page.get("fullurl") or f"https://commons.wikimedia.org/wiki/{title.replace(' ', '_')}"`. -/
def commonsPageUrl (pg : CommonsPage) : String :=
  (pyOr pg.fullurl
    (some ("https://commons.wikimedia.org/wiki/" ++ spacesToUnderscores pg.title))).getD ""

/-- The item built from one Commons page by the loop body of
`search_commons_images`; `none` when the page is skipped (`if not thumb:
continue`). -/
def commonsItem (pg : CommonsPage) : Option ImageResult :=
  let thumb := resolveThumb pg
  let ii := pg.imageinfo.getD {}
  if truthy thumb then
    some { title := some (cleanTitle pg.title)
         , thumbnail := thumb.getD ""
         , pageUrl := commonsPageUrl pg
         , summary := if truthy ii.artist then some ("By " ++ ii.artist.getD "") else none
         , source := "wikimedia_commons" }
  else none

/-- `search_commons_images`: the parse loop over the pages of the Commons API
response.  `query` and `limit` only shape the outgoing request (`gsrlimit =
min(limit, 50)`), not the parsing, and are kept for the call signature. -/
def search_commons_images (query : String) (limit : Nat)
    (pages : List CommonsPage) : List ImageResult :=
  pages.filterMap commonsItem

/-- One page of the Wikipedia API response.  `pageid` is the key of the page
in the `pages` object. -/
structure WikiPage where
  pageid : String := ""
  title : Option String := none
  extract : Option String := none
  thumbnailSource : Option String := none
  fullurl : Option String := none
  deriving DecidableEq, Repr

/-- The item built from one Wikipedia page by the loop body of
`search_wikipedia_pages`; `none` when the page has no thumbnail. -/
def wikiItem (pg : WikiPage) : Option ImageResult :=
  let thumb := pg.thumbnailSource
  if truthy thumb then
    some { title := pg.title
         , thumbnail := thumb.getD ""
         , pageUrl := (pyOr pg.fullurl
             (some ("https://en.wikipedia.org/?curid=" ++ pg.pageid))).getD ""
         , summary := pg.extract
         , source := "wikipedia" }
  else none

/-- `search_wikipedia_pages`: the parse loop over the pages of the Wikipedia
API response. -/
def search_wikipedia_pages (query : String) (limit : Nat)
    (pages : List WikiPage) : List ImageResult :=
  pages.filterMap wikiItem

/-- Summary string of the final-fallback placeholders of `get_images`. -/
def waitSummary : String := "Placeholder image while we find results"

/-- Summary string of the placeholders of the exception handler of `get_images`. -/
def errFetchSummary : String := "Placeholder image due to an error fetching results"

/-- One placeholder item, seeded by `{query}-{i}`. -/
def placeholderItem (query : String) (summary : String) (i : Nat) : ImageResult :=
  { title := some ("Placeholder #" ++ toString (i + 1))
  , thumbnail := "https://picsum.photos/seed/" ++ query ++ "-" ++ toString i ++ "/800/600"
  , pageUrl := "https://picsum.photos/"
  , summary := some summary
  , source := "picsum" }

/-- The list comprehension `[ {...} for i in range(n) ]` of placeholder items. -/
def placeholders (query : String) (summary : String) (n : Nat) : List ImageResult :=
  (List.range n).map (placeholderItem query summary)

/-- The Wikipedia top-up loop of `get_images`:
`for w in wiki_items: if w["thumbnail"] not in seen and len(items) < limit:
append w and record its thumbnail`. -/
def mergeWiki (limit : Nat) (items : List ImageResult) (seen : List String) :
    List ImageResult → List ImageResult
  | [] => items
  | w :: rest =>
    if w.thumbnail ∉ seen ∧ items.length < limit then
      mergeWiki limit (items ++ [w]) (seen ++ [w.thumbnail]) rest
    else
      mergeWiki limit items seen rest

/-- The tail of the `try` block of `get_images`: the placeholder fallback when
`items` is empty, else the normal response. -/
def finishResponse (query : String) (limit : Nat) (items : List ImageResult) :
    SearchResponse :=
  if items.isEmpty then
    let ph := placeholders query waitSummary (min limit 12)
    { query := query, count := ph.length, items := ph, error := none }
  else
    { query := query, count := items.length, items := items, error := none }

/-- The `except Exception` handler of `get_images`: six placeholders plus the
`error` field. -/
def errorResponse (query : String) (e : String) : SearchResponse :=
  let fallback := placeholders query errFetchSummary 6
  { query := query, count := fallback.length, items := fallback, error := some e }

/-- The `/images` handler.  The Commons call is consumed first; the Wikipedia
call is consumed only on the top-up path, so a response on the other paths is
independent of the `wiki` argument.  An `Except.error` on a consumed call is
the exception reaching the `except` handler. -/
def get_images (query : String) (limit : Nat)
    (commons : Except String (List CommonsPage))
    (wiki : Except String (List WikiPage)) : SearchResponse :=
  match commons with
  | .error e => errorResponse query e
  | .ok cpages =>
    let items0 := search_commons_images query limit cpages
    if items0.length < limit then
      match wiki with
      | .error e => errorResponse query e
      | .ok wpages =>
        let witems := search_wikipedia_pages query limit wpages
        finishResponse query limit
          (mergeWiki limit items0 (items0.map (fun r => r.thumbnail)) witems)
    else
      finishResponse query limit items0

/-- The validation FastAPI applies to the `limit` query parameter, translated
from `Query(24, ge=1, le=50)`: an out-of-range value is rejected with a
validation error, not clamped. -/
def limitParamValid (l : Nat) : Prop := 1 ≤ l ∧ l ≤ 50

instance (l : Nat) : Decidable (limitParamValid l) := by
  unfold limitParamValid; infer_instance

/-- The database handle the `/test` endpoint may import: its `name` attribute
(absent when `hasattr(db, "name")` is false) and the outcome of
`db.list_collection_names()` (`Except.error e` when the call raises, carrying
`str(e)`). -/
structure DbHandle where
  name : Option String := none
  collections : Except String (List String) := .ok []

/-- The outcome of `from database import db` inside `/test`. -/
inductive ImportOutcome where
  | ok : Option DbHandle → ImportOutcome
  | importError : ImportOutcome
  | otherError : String → ImportOutcome

/-- The body returned by `/test`.  The `database_url` and `database_name`
fields are overwritten unconditionally by the final environment-variable
check, so their earlier assignments are dead stores and the final value is
always one of the two Set / Not Set strings. -/
structure TestResponse where
  backend : String
  database : String
  database_url : String
  database_name : String
  connection_status : String
  collections : List String
  deriving DecidableEq, Repr

/-- The `/test` handler.  `envUrl` and `envName` are `os.getenv("DATABASE_URL")`
and `os.getenv("DATABASE_NAME")` (`none` when unset; an empty string is falsy
like `None`). -/
def test_database (imp : ImportOutcome) (envUrl envName : Option String) :
    TestResponse :=
  let status : String × String × List String :=
    match imp with
    | .ok (some db) =>
      match db.collections with
      | .ok cols => ("✅ Connected & Working", "Connected", cols.take 10)
      | .error e => ("⚠️  Connected but Error: " ++ pyTake50 e, "Connected", [])
    | .ok none => ("⚠️  Available but not initialized", "Not Connected", [])
    | .importError =>
      ("❌ Database module not found (run enable-database first)", "Not Connected", [])
    | .otherError e => ("❌ Error: " ++ pyTake50 e, "Not Connected", [])
  { backend := "✅ Running"
  , database := status.1
  , connection_status := status.2.1
  , collections := status.2.2
  , database_url := if truthy envUrl then "✅ Set" else "❌ Not Set"
  , database_name := if truthy envName then "✅ Set" else "❌ Not Set" }

/-- The title rule as the specification states it: strip only a leading
`"File:"` prefix, then surrounding whitespace (for comparison with the
code's `cleanTitle`, which removes every occurrence). -/
def specCleanTitle (t : String) : String :=
  if ("File:").data.isPrefixOf t.data then pyStrip ⟨t.data.drop 5⟩ else pyStrip t

/-! ### Helper lemmas -/

theorem placeholders_length (q s : String) (n : Nat) :
    (placeholders q s n).length = n := by
  simp [placeholders]

theorem placeholders_source (q s : String) (n : Nat) :
    ∀ r ∈ placeholders q s n, r.source = "picsum" := by
  intro r hr
  simp only [placeholders, List.mem_map] at hr
  obtain ⟨i, -, rfl⟩ := hr
  rfl

theorem errorResponse_eq (q e : String) :
    errorResponse q e =
      { query := q, count := 6, items := placeholders q errFetchSummary 6
      , error := some e } := by
  simp [errorResponse, placeholders_length]

theorem repr_append_inj : ∀ i j : Fin 12,
    (toString i.val).data ++ ("/800/600").data =
      (toString j.val).data ++ ("/800/600").data → i = j := by
  decide

theorem placeholderItem_thumb_inj (q s t : String) {i j : Nat}
    (hi : i < 12) (hj : j < 12)
    (h : (placeholderItem q s i).thumbnail = (placeholderItem q t j).thumbnail) :
    i = j := by
  have hd := congrArg String.data h
  simp only [placeholderItem, String.data_append, List.append_assoc] at hd
  have h1 := List.append_cancel_left hd
  have h2 := List.append_cancel_left h1
  have h3 := List.append_cancel_left h2
  exact congrArg Fin.val (repr_append_inj ⟨i, hi⟩ ⟨j, hj⟩ h3)

theorem placeholders_thumbs_nodup (q s : String) (n : Nat) (hn : n ≤ 12) :
    ((placeholders q s n).map (fun r => r.thumbnail)).Nodup := by
  unfold placeholders
  rw [List.map_map]
  refine List.Nodup.map_on ?_ (List.nodup_range n)
  intro i hi j hj hij
  exact placeholderItem_thumb_inj q s s (Nat.lt_of_lt_of_le (List.mem_range.mp hi) hn)
    (Nat.lt_of_lt_of_le (List.mem_range.mp hj) hn) hij

theorem mergeWiki_append :
    ∀ (ws : List ImageResult) (l : Nat) (items : List ImageResult)
      (seen : List String),
      ∃ extra, mergeWiki l items seen ws = items ++ extra := by
  intro ws
  induction ws with
  | nil => exact fun l items seen => ⟨[], by simp [mergeWiki]⟩
  | cons w rest ih =>
    intro l items seen
    unfold mergeWiki
    split
    · obtain ⟨extra, hex⟩ := ih l (items ++ [w]) (seen ++ [w.thumbnail])
      exact ⟨[w] ++ extra, by rw [hex, List.append_assoc]⟩
    · exact ih l items seen

theorem mergeWiki_length_le {l : Nat} :
    ∀ (ws items : List ImageResult) (seen : List String),
      items.length ≤ l → (mergeWiki l items seen ws).length ≤ l := by
  intro ws
  induction ws with
  | nil => intro items seen h; simpa [mergeWiki] using h
  | cons w rest ih =>
    intro items seen h
    unfold mergeWiki
    split
    case isTrue hc =>
      refine ih (items ++ [w]) (seen ++ [w.thumbnail]) ?_
      have := hc.2
      simp only [List.length_append, List.length_cons, List.length_nil]
      omega
    case isFalse => exact ih items seen h

theorem mergeWiki_count {t : String} :
    ∀ (ws : List ImageResult) (l : Nat) (items : List ImageResult)
      (seen : List String), t ∈ seen →
      ((mergeWiki l items seen ws).map (fun r => r.thumbnail)).count t =
        (items.map (fun r => r.thumbnail)).count t := by
  intro ws
  induction ws with
  | nil => intro l items seen _; simp [mergeWiki]
  | cons w rest ih =>
    intro l items seen ht
    unfold mergeWiki
    split
    case isTrue hc =>
      rw [ih l (items ++ [w]) (seen ++ [w.thumbnail]) (List.mem_append_left _ ht)]
      have hne : w.thumbnail ≠ t := fun he => hc.1 (he ▸ ht)
      simp [List.count_append, List.count_cons, hne]
    case isFalse => exact ih l items seen ht

theorem mem_search_commons_source (q : String) (l : Nat)
    (pages : List CommonsPage) :
    ∀ r ∈ search_commons_images q l pages, r.source = "wikimedia_commons" := by
  intro r hr
  obtain ⟨pg, -, hpg⟩ := List.mem_filterMap.mp hr
  simp only [commonsItem] at hpg
  split at hpg
  · cases hpg; rfl
  · cases hpg

theorem finishResponse_count_eq (q : String) (l : Nat) (items : List ImageResult) :
    (finishResponse q l items).count = (finishResponse q l items).items.length := by
  unfold finishResponse
  split <;> rfl

theorem finishResponse_count_pos (q : String) (l : Nat) (items : List ImageResult)
    (h1 : 1 ≤ l) : 1 ≤ (finishResponse q l items).count := by
  unfold finishResponse
  split
  case isTrue =>
    simp only [placeholders_length]
    exact Nat.le_min.mpr ⟨h1, by omega⟩
  case isFalse h =>
    rw [Bool.not_eq_true, List.isEmpty_eq_false, ← List.length_pos_iff_ne_nil] at h
    exact h

theorem finishResponse_count_le (q : String) (l : Nat) (items : List ImageResult)
    (h : items.length ≤ l) : (finishResponse q l items).count ≤ l := by
  unfold finishResponse
  split
  case isTrue => simpa only [placeholders_length] using Nat.min_le_left l 12
  case isFalse => exact h

theorem finishResponse_of_ne_nil (q : String) (l : Nat) (items : List ImageResult)
    (h : items ≠ []) :
    finishResponse q l items =
      { query := q, count := items.length, items := items, error := none } := by
  unfold finishResponse
  rw [if_neg]
  simp [h]

theorem mem_search_commons_title (q : String) (l : Nat) (pages : List CommonsPage) :
    ∀ r ∈ search_commons_images q l pages,
      ∃ pg ∈ pages, truthy (resolveThumb pg) = true ∧
        r.title = some (cleanTitle pg.title) := by
  intro r hr
  obtain ⟨pg, hmem, hpg⟩ := List.mem_filterMap.mp hr
  refine ⟨pg, hmem, ?_⟩
  simp only [commonsItem] at hpg
  split at hpg
  case isTrue ht => cases hpg; exact ⟨ht, rfl⟩
  case isFalse => cases hpg

theorem search_commons_length (q : String) (l : Nat) (pages : List CommonsPage) :
    (search_commons_images q l pages).length =
      pages.countP (fun pg => truthy (resolveThumb pg)) := by
  induction pages with
  | nil => rfl
  | cons pg rest ih =>
    simp only [search_commons_images, List.filterMap_cons, List.countP_cons] at ih ⊢
    by_cases h : truthy (resolveThumb pg) = true
    · have : ∃ r, commonsItem pg = some r := by
        simp only [commonsItem]
        rw [if_pos h]
        exact ⟨_, rfl⟩
      obtain ⟨r, hr⟩ := this
      rw [hr]
      simp [ih, h]
    · have : commonsItem pg = none := by
        simp only [commonsItem]
        rw [if_neg h]
      rw [this]
      simp only [Bool.not_eq_true] at h
      simp [ih, h]

theorem errorResponse_count (q e : String) : (errorResponse q e).count = 6 := by
  simp [errorResponse, placeholders_length]

theorem get_images_shape (q : String) (l : Nat)
    (commons : Except String (List CommonsPage))
    (wiki : Except String (List WikiPage)) :
    (∃ e, get_images q l commons wiki = errorResponse q e) ∨
    (∃ items, get_images q l commons wiki = finishResponse q l items) := by
  cases commons with
  | error e => exact Or.inl ⟨e, rfl⟩
  | ok cpages =>
    simp only [get_images]
    by_cases hlt : (search_commons_images q l cpages).length < l
    · rw [if_pos hlt]
      cases wiki with
      | error e => exact Or.inl ⟨e, rfl⟩
      | ok wpages => exact Or.inr ⟨_, rfl⟩
    · rw [if_neg hlt]
      exact Or.inr ⟨_, rfl⟩

/-! ### Claims -/

/-- C1: for every non-empty query and every limit in `[1, 50]`, the `/images`
handler returns a response whose `count` equals the length of `items` and is
at least 1, in every branch (Commons results, Wikipedia top-up, empty-merge
placeholder branch, and the exception branch, i.e. for every outcome of the
two upstream calls). -/
theorem c1_count_matches_items (q : String) (l : Nat)
    (commons : Except String (List CommonsPage))
    (wiki : Except String (List WikiPage))
    (hq : q ≠ "") (h1 : 1 ≤ l) (h50 : l ≤ 50) :
    (get_images q l commons wiki).count =
      (get_images q l commons wiki).items.length ∧
    1 ≤ (get_images q l commons wiki).count := by
  rcases get_images_shape q l commons wiki with ⟨e, he⟩ | ⟨items, hi⟩
  · rw [he]
    refine ⟨rfl, ?_⟩
    rw [errorResponse_count]
    omega
  · rw [hi]
    exact ⟨finishResponse_count_eq q l items, finishResponse_count_pos q l items h1⟩

theorem c1_witness :
    ("cat" : String) ≠ "" ∧
    (get_images "cat" 5 (Except.ok []) (Except.ok [])).count =
      (get_images "cat" 5 (Except.ok []) (Except.ok [])).items.length ∧
    1 ≤ (get_images "cat" 5 (Except.ok []) (Except.ok [])).count :=
  ⟨by decide, c1_count_matches_items "cat" 5 (Except.ok []) (Except.ok [])
    (by decide) (by decide) (by decide)⟩

/-- C2: whenever a consumed step of the `/images` pipeline raises (the Commons
call, or the Wikipedia call on the top-up path), the handler returns a normal
response with exactly 6 placeholder items (source `"picsum"`, thumbnails
seeded `{query}-{i}` for `i = 0..5` as `placeholderItem` spells out) and an
`error` field equal to `str(e)`. -/
theorem c2_exception_absorbed (q : String) (l : Nat) (e : String)
    (commons : Except String (List CommonsPage))
    (wiki : Except String (List WikiPage))
    (h : commons = Except.error e ∨
      ∃ cpages, commons = Except.ok cpages ∧
        (search_commons_images q l cpages).length < l ∧ wiki = Except.error e) :
    get_images q l commons wiki =
      { query := q, count := 6, items := placeholders q errFetchSummary 6
      , error := some e } ∧
    ∀ r ∈ (get_images q l commons wiki).items, r.source = "picsum" := by
  have hmain : get_images q l commons wiki = errorResponse q e := by
    rcases h with rfl | ⟨cpages, rfl, hlt, rfl⟩
    · rfl
    · simp only [get_images]
      rw [if_pos hlt]
  constructor
  · rw [hmain, errorResponse_eq]
  · rw [hmain]
    exact placeholders_source q errFetchSummary 6

theorem c2_witness :
    get_images "q" 24 (Except.error "boom") (Except.ok []) =
      { query := "q", count := 6, items := placeholders "q" errFetchSummary 6
      , error := some "boom" } ∧
    ∀ r ∈ (get_images "q" 24 (Except.error "boom") (Except.ok [])).items,
      r.source = "picsum" :=
  c2_exception_absorbed "q" 24 "boom" _ _ (Or.inl rfl)

theorem get_images_empty_merge (q : String) (l : Nat)
    (cpages : List CommonsPage) (wpages : List WikiPage)
    (h1 : 1 ≤ l)
    (hc : search_commons_images q l cpages = [])
    (hw : search_wikipedia_pages q l wpages = []) :
    get_images q l (Except.ok cpages) (Except.ok wpages) =
      { query := q, count := min l 12
      , items := placeholders q waitSummary (min l 12), error := none } := by
  have h0 : (0 : Nat) < l := h1
  simp only [get_images, hc, hw, List.length_nil, List.map_nil]
  rw [if_pos h0]
  show finishResponse q l [] = _
  unfold finishResponse
  simp [placeholders_length]

/-- C3 counterexample: with both upstream page lists empty and the default
limit 24, the `/images` response holds 12 placeholder items, not the 6 the
claim states. -/
theorem c3_counterexample :
    (get_images "cat" 24 (Except.ok []) (Except.ok [])).count = 12 ∧
    (12 : Nat) ≠ 6 ∧
    ∀ r ∈ (get_images "cat" 24 (Except.ok []) (Except.ok [])).items,
      r.source = "picsum" := by
  decide

/-- C3 (amended): for every non-empty query and limit in `[1, 50]`, if both
upstream services return zero usable items and no exception is raised, the
response contains exactly `min(limit, 12)` placeholder items (not always 6),
each with source `"picsum"` and with pairwise distinct thumbnail URLs. -/
theorem c3_amended (q : String) (l : Nat)
    (cpages : List CommonsPage) (wpages : List WikiPage)
    (hq : q ≠ "") (h1 : 1 ≤ l) (h50 : l ≤ 50)
    (hc : search_commons_images q l cpages = [])
    (hw : search_wikipedia_pages q l wpages = []) :
    (get_images q l (Except.ok cpages) (Except.ok wpages)).items.length =
      min l 12 ∧
    (∀ r ∈ (get_images q l (Except.ok cpages) (Except.ok wpages)).items,
      r.source = "picsum") ∧
    (((get_images q l (Except.ok cpages) (Except.ok wpages)).items).map
      (fun r => r.thumbnail)).Nodup := by
  rw [get_images_empty_merge q l cpages wpages h1 hc hw]
  exact ⟨placeholders_length q waitSummary (min l 12),
    placeholders_source q waitSummary (min l 12),
    placeholders_thumbs_nodup q waitSummary (min l 12) (Nat.min_le_right l 12)⟩

theorem c3_amended_witness :
    ("cat" : String) ≠ "" ∧
    ((get_images "cat" 24 (Except.ok []) (Except.ok [])).items.length = min 24 12 ∧
    (∀ r ∈ (get_images "cat" 24 (Except.ok []) (Except.ok [])).items,
      r.source = "picsum") ∧
    (((get_images "cat" 24 (Except.ok []) (Except.ok [])).items).map
      (fun r => r.thumbnail)).Nodup) :=
  ⟨by decide, c3_amended "cat" 24 [] [] (by decide) (by decide) (by decide) rfl rfl⟩

/-- C4: for every non-empty query and limit in `[1, 50]`, if the merged
Commons-plus-Wikipedia set is empty and no exception is raised, the handler
synthesizes exactly `min(limit, 12)` placeholder items, the item of index `i`
carrying the thumbnail URL seeded by `{query}-{i}`, and the thumbnails are
pairwise distinct. -/
theorem c4_placeholder_synthesis (q : String) (l : Nat)
    (cpages : List CommonsPage) (wpages : List WikiPage)
    (hq : q ≠ "") (h1 : 1 ≤ l) (h50 : l ≤ 50)
    (hc : search_commons_images q l cpages = [])
    (hw : search_wikipedia_pages q l wpages = []) :
    (get_images q l (Except.ok cpages) (Except.ok wpages)).count = min l 12 ∧
    (get_images q l (Except.ok cpages) (Except.ok wpages)).items =
      (List.range (min l 12)).map (placeholderItem q waitSummary) ∧
    (∀ i ∈ List.range (min l 12), (placeholderItem q waitSummary i).thumbnail =
      "https://picsum.photos/seed/" ++ q ++ "-" ++ toString i ++ "/800/600") ∧
    (((get_images q l (Except.ok cpages) (Except.ok wpages)).items).map
      (fun r => r.thumbnail)).Nodup := by
  rw [get_images_empty_merge q l cpages wpages h1 hc hw]
  exact ⟨rfl, rfl, fun i _ => rfl,
    placeholders_thumbs_nodup q waitSummary (min l 12) (Nat.min_le_right l 12)⟩

theorem c4_witness :
    (get_images "dog" 5 (Except.ok []) (Except.ok [])).count = min 5 12 ∧
    (get_images "dog" 5 (Except.ok []) (Except.ok [])).items =
      (List.range (min 5 12)).map (placeholderItem "dog" waitSummary) ∧
    (∀ i ∈ List.range (min 5 12), (placeholderItem "dog" waitSummary i).thumbnail =
      "https://picsum.photos/seed/" ++ "dog" ++ "-" ++ toString i ++ "/800/600") ∧
    (((get_images "dog" 5 (Except.ok []) (Except.ok [])).items).map
      (fun r => r.thumbnail)).Nodup :=
  c4_placeholder_synthesis "dog" 5 [] [] (by decide) (by decide) (by decide) rfl rfl

/-- C5 counterexample: with limit 1 and a Commons response already holding two
usable pages, the handler keeps both items, so `count = 2` exceeds the
requested limit 1 (the Commons list is never truncated). -/
theorem c5_counterexample :
    (get_images "q" 1
      (Except.ok
        [ { title := "File:A.jpg", fullurl := some "u"
          , imageinfo := some { thumburl := some "t1" } }
        , { title := "File:B.jpg", fullurl := some "u"
          , imageinfo := some { thumburl := some "t2" } } ])
      (Except.ok [])).count = 2 ∧ ¬ (2 : Nat) ≤ 1 := by
  decide

/-- C5 (amended): when no consumed step raises and the Commons step yields at
most `limit` usable items, `count` never exceeds `limit` (the Wikipedia top-up
stops at `limit` and the placeholder branch synthesizes `min(limit, 12) ≤
limit` items); Commons results are appended untruncated, so an upstream
returning more usable items than `limit` drives `count` above it, and a
client limit above 50 fails the `Query(24, ge=1, le=50)` validation instead
of being clamped. -/
theorem c5_amended (q : String) (l : Nat)
    (cpages : List CommonsPage) (wpages : List WikiPage)
    (h : (search_commons_images q l cpages).length ≤ l) :
    (get_images q l (Except.ok cpages) (Except.ok wpages)).count ≤ l ∧
    ¬ limitParamValid 51 := by
  constructor
  · simp only [get_images]
    by_cases hlt : (search_commons_images q l cpages).length < l
    · rw [if_pos hlt]
      exact finishResponse_count_le _ _ _
        (mergeWiki_length_le _ _ _ (Nat.le_of_lt hlt))
    · rw [if_neg hlt]
      exact finishResponse_count_le _ _ _ h
  · decide

theorem c5_witness :
    (get_images "q" 24 (Except.ok []) (Except.ok [])).count ≤ 24 ∧
    ¬ limitParamValid 51 :=
  c5_amended "q" 24 [] [] (by decide)

/-- C6 counterexample: two Commons pages sharing thumbnail `"t"` plus a
Wikipedia page with the same thumbnail give a response in which `"t"` appears
twice — the seen-set only guards the Wikipedia merge, not the Commons list
itself. -/
theorem c6_counterexample :
    (((get_images "q" 24
        (Except.ok
          [ { title := "File:A.jpg", imageinfo := some { thumburl := some "t" } }
          , { title := "File:B.jpg", imageinfo := some { thumburl := some "t" } } ])
        (Except.ok
          [ { pageid := "1", title := some "W", thumbnailSource := some "t" } ])).items).map
      (fun r => r.thumbnail)).count "t" = 2 ∧ (2 : Nat) ≠ 1 := by
  decide

/-- C6 (amended): provided the Commons-derived items carry pairwise distinct
thumbnails (the code deduplicates only at the Wikipedia merge), a thumbnail
returned by both Commons and Wikipedia appears exactly once in the final
items list. -/
theorem c6_amended (q t : String) (l : Nat)
    (cpages : List CommonsPage) (wpages : List WikiPage)
    (hnd : ((search_commons_images q l cpages).map (fun r => r.thumbnail)).Nodup)
    (hct : t ∈ (search_commons_images q l cpages).map (fun r => r.thumbnail))
    (hwt : t ∈ (search_wikipedia_pages q l wpages).map (fun r => r.thumbnail)) :
    (((get_images q l (Except.ok cpages) (Except.ok wpages)).items).map
      (fun r => r.thumbnail)).count t = 1 := by
  have hone : ((search_commons_images q l cpages).map (fun r => r.thumbnail)).count t = 1 :=
    List.count_eq_one_of_mem hnd hct
  have hne : search_commons_images q l cpages ≠ [] := by
    intro h
    rw [h] at hct
    simp at hct
  simp only [get_images]
  by_cases hlt : (search_commons_images q l cpages).length < l
  · rw [if_pos hlt]
    have hmw := mergeWiki_count (t := t) (search_wikipedia_pages q l wpages) l
      (search_commons_images q l cpages)
      ((search_commons_images q l cpages).map (fun r => r.thumbnail)) hct
    obtain ⟨extra, hex⟩ := mergeWiki_append (search_wikipedia_pages q l wpages) l
      (search_commons_images q l cpages)
      ((search_commons_images q l cpages).map (fun r => r.thumbnail))
    have hmne : mergeWiki l (search_commons_images q l cpages)
        ((search_commons_images q l cpages).map (fun r => r.thumbnail))
        (search_wikipedia_pages q l wpages) ≠ [] := by
      rw [hex]
      intro hcon
      exact hne (List.append_eq_nil.mp hcon).1
    rw [finishResponse_of_ne_nil _ _ _ hmne]
    exact hmw.trans hone
  · rw [if_neg hlt]
    rw [finishResponse_of_ne_nil _ _ _ hne]
    exact hone

theorem c6_witness :
    (((get_images "q" 24
        (Except.ok [ { title := "File:A.jpg", imageinfo := some { thumburl := some "t1" } } ])
        (Except.ok [ { pageid := "1", title := some "W", thumbnailSource := some "t1" } ])).items).map
      (fun r => r.thumbnail)).count "t1" = 1 :=
  c6_amended "q" "t1" 24 _ _ (by decide) (by decide) (by decide)

/-- C7: when the Commons step already yields at least `limit` usable items
(with `limit ≥ 1`), the response is the same for every outcome of the
Wikipedia call — i.e. that call is never consumed — and every returned item
has source `"wikimedia_commons"`. -/
theorem c7_no_wikipedia_topup (q : String) (l : Nat) (cpages : List CommonsPage)
    (h1 : 1 ≤ l) (h2 : l ≤ (search_commons_images q l cpages).length) :
    (∀ wiki : Except String (List WikiPage),
      get_images q l (Except.ok cpages) wiki =
        { query := q, count := (search_commons_images q l cpages).length
        , items := search_commons_images q l cpages, error := none }) ∧
    ∀ r ∈ search_commons_images q l cpages, r.source = "wikimedia_commons" := by
  constructor
  · intro wiki
    simp only [get_images]
    rw [if_neg (Nat.not_lt.mpr h2)]
    refine finishResponse_of_ne_nil _ _ _ ?_
    intro hcon
    rw [hcon] at h2
    simp only [List.length_nil, Nat.le_zero] at h2
    omega
  · exact mem_search_commons_source q l cpages

theorem c7_witness :
    (get_images "cat" 5
      (Except.ok
        [ { title := "File:A.jpg", imageinfo := some { thumburl := some "a" } }
        , { title := "File:B.jpg", imageinfo := some { thumburl := some "b" } }
        , { title := "File:C.jpg", imageinfo := some { thumburl := some "c" } }
        , { title := "File:D.jpg", imageinfo := some { thumburl := some "d" } }
        , { title := "File:E.jpg", imageinfo := some { thumburl := some "e" } } ])
      (Except.error "down") =
      { query := "cat"
      , count := (search_commons_images "cat" 5
          [ { title := "File:A.jpg", imageinfo := some { thumburl := some "a" } }
          , { title := "File:B.jpg", imageinfo := some { thumburl := some "b" } }
          , { title := "File:C.jpg", imageinfo := some { thumburl := some "c" } }
          , { title := "File:D.jpg", imageinfo := some { thumburl := some "d" } }
          , { title := "File:E.jpg", imageinfo := some { thumburl := some "e" } } ]).length
      , items := search_commons_images "cat" 5
          [ { title := "File:A.jpg", imageinfo := some { thumburl := some "a" } }
          , { title := "File:B.jpg", imageinfo := some { thumburl := some "b" } }
          , { title := "File:C.jpg", imageinfo := some { thumburl := some "c" } }
          , { title := "File:D.jpg", imageinfo := some { thumburl := some "d" } }
          , { title := "File:E.jpg", imageinfo := some { thumburl := some "e" } } ]
      , error := none }) ∧
    ∀ r ∈ search_commons_images "cat" 5
        [ { title := "File:A.jpg", imageinfo := some { thumburl := some "a" } }
        , { title := "File:B.jpg", imageinfo := some { thumburl := some "b" } }
        , { title := "File:C.jpg", imageinfo := some { thumburl := some "c" } }
        , { title := "File:D.jpg", imageinfo := some { thumburl := some "d" } }
        , { title := "File:E.jpg", imageinfo := some { thumburl := some "e" } } ],
      r.source = "wikimedia_commons" := by
  have h := c7_no_wikipedia_topup "cat" 5
    [ { title := "File:A.jpg", imageinfo := some { thumburl := some "a" } }
    , { title := "File:B.jpg", imageinfo := some { thumburl := some "b" } }
    , { title := "File:C.jpg", imageinfo := some { thumburl := some "c" } }
    , { title := "File:D.jpg", imageinfo := some { thumburl := some "d" } }
    , { title := "File:E.jpg", imageinfo := some { thumburl := some "e" } } ]
    (by decide) (by decide)
  exact ⟨h.1 (Except.error "down"), h.2⟩

/-- C8 counterexample: a Commons page titled `"x File:y"` — whose only
`"File:"` occurrence is not a leading prefix — is emitted with title
`"x y"`: Python `str.replace` removes every occurrence, while the claim
(`specCleanTitle`) would leave the title unchanged. -/
theorem c8_counterexample :
    search_commons_images "q" 5
      [ { title := "x File:y", imageinfo := some { thumburl := some "t" } } ] =
      [ { title := some "x y", thumbnail := "t"
        , pageUrl := "https://commons.wikimedia.org/wiki/x_File:y"
        , summary := none, source := "wikimedia_commons" } ] ∧
    specCleanTitle "x File:y" = "x File:y" ∧
    ("x y" : String) ≠ "x File:y" := by
  decide

/-- C8 (amended): every emitted Commons item takes its title from `cleanTitle`
— the page title with every `"File:"` occurrence removed in one pass (not
only a leading prefix) and surrounding whitespace stripped — and pages whose
thumbnail does not resolve are skipped entirely, so the number of emitted
items is the number of pages with a resolvable (truthy) thumbnail. -/
theorem c8_amended (q : String) (l : Nat) (pages : List CommonsPage) :
    (∀ r ∈ search_commons_images q l pages,
      ∃ pg ∈ pages, truthy (resolveThumb pg) = true ∧
        r.title = some (cleanTitle pg.title)) ∧
    (search_commons_images q l pages).length =
      pages.countP (fun pg => truthy (resolveThumb pg)) :=
  ⟨mem_search_commons_title q l pages, search_commons_length q l pages⟩

theorem c8_witness :
    (search_commons_images "q" 5
      [ { title := " File:File:a b.jpg ", imageinfo := some { thumburl := some "t" } }
      , { title := "File:NoThumb.jpg" } ]).length = 1 ∧
    (search_commons_images "q" 5
      [ { title := " File:File:a b.jpg ", imageinfo := some { thumburl := some "t" } }
      , { title := "File:NoThumb.jpg" } ]).map (fun r => r.title) =
      [some (cleanTitle " File:File:a b.jpg ")] := by
  have h := c8_amended "q" 5
    [ { title := " File:File:a b.jpg ", imageinfo := some { thumburl := some "t" } }
    , { title := "File:NoThumb.jpg" } ]
  exact ⟨h.2.trans (by decide), by decide⟩

/-- C9: when `from database import db` raises `ImportError` inside `/test`,
the handler still returns a response; its `database` field contains
`"not found"` (shown by the explicit decomposition), and with both
`DATABASE_URL` and `DATABASE_NAME` unset the corresponding fields are the
Not Set markers. -/
theorem c9_test_degrades :
    (test_database ImportOutcome.importError none none).backend = "✅ Running" ∧
    (test_database ImportOutcome.importError none none).database =
      "❌ Database module " ++ "not found" ++ " (run enable-database first)" ∧
    (test_database ImportOutcome.importError none none).database_url = "❌ Not Set" ∧
    (test_database ImportOutcome.importError none none).database_name = "❌ Not Set" := by
  decide

/-- C10: deduplication is applied only across providers — duplicate
thumbnails inside the Commons list itself survive: whenever a thumbnail `t`
occurs at least twice among the Commons-derived items, it also occurs at
least twice in the final `/images` items list, for every Wikipedia result
list. -/
theorem c10_commons_duplicates_survive (q t : String) (l : Nat)
    (cpages : List CommonsPage) (wpages : List WikiPage)
    (h : 2 ≤ ((search_commons_images q l cpages).map (fun r => r.thumbnail)).count t) :
    2 ≤ (((get_images q l (Except.ok cpages) (Except.ok wpages)).items).map
      (fun r => r.thumbnail)).count t := by
  have hne : search_commons_images q l cpages ≠ [] := by
    intro hcon
    rw [hcon] at h
    simp at h
  simp only [get_images]
  by_cases hlt : (search_commons_images q l cpages).length < l
  · rw [if_pos hlt]
    obtain ⟨extra, hex⟩ := mergeWiki_append (search_wikipedia_pages q l wpages) l
      (search_commons_images q l cpages)
      ((search_commons_images q l cpages).map (fun r => r.thumbnail))
    have hmne : mergeWiki l (search_commons_images q l cpages)
        ((search_commons_images q l cpages).map (fun r => r.thumbnail))
        (search_wikipedia_pages q l wpages) ≠ [] := by
      rw [hex]
      intro hcon
      exact hne (List.append_eq_nil.mp hcon).1
    rw [finishResponse_of_ne_nil _ _ _ hmne]
    show 2 ≤ ((mergeWiki l (search_commons_images q l cpages)
        ((search_commons_images q l cpages).map (fun r => r.thumbnail))
        (search_wikipedia_pages q l wpages)).map (fun r => r.thumbnail)).count t
    rw [hex, List.map_append, List.count_append]
    exact Nat.le_trans h (Nat.le_add_right _ _)
  · rw [if_neg hlt]
    rw [finishResponse_of_ne_nil _ _ _ hne]
    exact h

theorem c10_witness :
    2 ≤ (((get_images "q" 24
        (Except.ok
          [ { title := "File:A.jpg", imageinfo := some { thumburl := some "dup" } }
          , { title := "File:B.jpg", imageinfo := some { thumburl := some "dup" } } ])
        (Except.ok [])).items).map (fun r => r.thumbnail)).count "dup" :=
  c10_commons_duplicates_survive "q" "dup" 24 _ _ (by decide)
